import Mathlib

/-!
# Verification of the Cesium glTF resource-loader subsystem

Shallow embedding of the loader state machines found in
`Source/Scene/GltfBufferViewLoader.js`, `Source/Scene/GltfImageLoader.js`,
`GltfJsonLoader` and `GltfDracoLoader`, together with the relevant parts of
`Source/Scene/GltfLoader.js`.  Each loader is modelled as a record of its
mutable fields plus a ledger of cache acquisitions/releases; the asynchronous
continuations of the JavaScript code become explicit step functions on the
record, and event traces are folds of those steps.
-/

namespace Cesium

/-- Modelled from the spec: `ResourceLoaderState.js` is not among the provided
source files; §4.1 of the spec lists the lifecycle states shared by every
loader: UNLOADED, LOADING, PROCESSING, READY, FAILED, DESTROYED. -/
inductive ResourceLoaderState
  | unloaded
  | loading
  | processing
  | ready
  | failed
  | destroyed
  deriving DecidableEq, Repr

/-- Errors raised or propagated by loaders.  `failure` is an underlying error
(fetch/decode failure); `annotated` is an error wrapped with a human-readable
context message, keeping the underlying cause. -/
inductive LoadError
  | failure (message : String)
  | annotated (message : String) (cause : LoadError)
  deriving DecidableEq, Repr

/-- The cause retained inside an annotated error (none for a bare failure). -/
def LoadError.causeOf : LoadError → Option LoadError
  | .failure _ => none
  | .annotated _ cause => some cause

/-- Modelled from the spec: `ResourceLoader.js` (the abstract base with
`ResourceLoader.getError`) is not among the provided source files; §7 of the
spec says a loader "rejects its promise with an error that is annotated with a
human-readable context message ... without discarding the underlying cause". -/
def ResourceLoader.getError (error : LoadError) (errorMessage : String) : LoadError :=
  .annotated errorMessage error

/-- Modelled from the spec: the `when.js` deferred used by every loader (§3:
"a single-resolution promise/future that settles exactly once").  Once
resolved or rejected, further settles are no-ops. -/
inductive PromiseState
  | pending
  | resolved
  | rejected (error : LoadError)
  deriving DecidableEq, Repr

/-- Settle the deferred with success; a no-op if already settled. -/
def PromiseState.resolve : PromiseState → PromiseState
  | .pending => .resolved
  | p => p

/-- Settle the deferred with an error; a no-op if already settled. -/
def PromiseState.reject (e : LoadError) : PromiseState → PromiseState
  | .pending => .rejected e
  | p => p

/-- Whether the deferred has been resolved (successfully). -/
def PromiseState.isResolved : PromiseState → Bool
  | .resolved => true
  | _ => false

/-- A JavaScript `Uint8Array` view: an underlying `ArrayBuffer` (list of
bytes), a byte offset into it, and a byte length. -/
structure Uint8ArrayView where
  backing : List Nat
  byteOffset : Nat
  byteLength : Nat
  deriving DecidableEq, Repr

/-- The byte contents of the view. -/
def Uint8ArrayView.bytes (a : Uint8ArrayView) : List Nat :=
  (a.backing.drop a.byteOffset).take a.byteLength

/-! ## GltfBufferViewLoader (Source/Scene/GltfBufferViewLoader.js)

The mutable fields of the loader together with a ledger of how many times the
loader acquired (`getBufferLoader` via `resourceCache.loadExternalBuffer` /
`loadEmbeddedBuffer`) and released (`resourceCache.unload`) its parent buffer
cache reference.  `bufferLoader = some ()` models `_bufferLoader` being
defined. -/
structure GltfBufferViewLoader where
  byteOffset : Nat
  byteLength : Nat
  bufferLoader : Option Unit
  typedArray : Option Uint8ArrayView
  state : ResourceLoaderState
  promise : PromiseState
  acquires : Nat
  releases : Nat
  deriving DecidableEq, Repr

namespace GltfBufferViewLoader

/-- The constructor: fields from `options`, `_state = UNLOADED`,
`_promise = when.defer()`. -/
def fromOptions (byteOffset byteLength : Nat) : GltfBufferViewLoader :=
  { byteOffset := byteOffset
    byteLength := byteLength
    bufferLoader := none
    typedArray := none
    state := .unloaded
    promise := .pending
    acquires := 0
    releases := 0 }

/-- `unload(bufferViewLoader)`: releases the parent buffer cache reference if
`_bufferLoader` is defined, then clears `_bufferLoader` and `_typedArray`. -/
def unload (l : GltfBufferViewLoader) : GltfBufferViewLoader :=
  { l with
    releases := if l.bufferLoader.isSome then l.releases + 1 else l.releases
    bufferLoader := none
    typedArray := none }

/-- `load()`: acquires the parent buffer loader from the cache, sets
`_state = LOADING` and stores the handle. -/
def load (l : GltfBufferViewLoader) : GltfBufferViewLoader :=
  { l with
    acquires := l.acquires + 1
    bufferLoader := some ()
    state := .loading }

/-- The success continuation of `load()` (`bufferLoader.promise.then`):
receives the parent buffer loader's typed array.  Checks for DESTROYED,
otherwise builds `new Uint8Array(bufferTypedArray.buffer,
bufferTypedArray.byteOffset + this._byteOffset, this._byteLength)`, keeps the
buffer loader referenced, transitions to READY and resolves. -/
def onBufferResolved (l : GltfBufferViewLoader) (bufferTypedArray : Uint8ArrayView) :
    GltfBufferViewLoader :=
  if l.state = .destroyed then
    l.unload
  else
    let bufferViewTypedArray : Uint8ArrayView :=
      { backing := bufferTypedArray.backing
        byteOffset := bufferTypedArray.byteOffset + l.byteOffset
        byteLength := l.byteLength }
    { l with
      typedArray := some bufferViewTypedArray
      state := .ready
      promise := l.promise.resolve }

/-- The failure continuation of `load()` (`.otherwise`): unloads, sets
`_state = FAILED` and rejects with the annotated error. -/
def onBufferFailed (l : GltfBufferViewLoader) (error : LoadError) : GltfBufferViewLoader :=
  let l := l.unload
  { l with
    state := .failed
    promise := l.promise.reject (ResourceLoader.getError error "Failed to load buffer view") }

/-- `isDestroyed()`: always returns false. -/
def isDestroyed (_ : GltfBufferViewLoader) : Bool :=
  false

/-- `destroy()`: unloads and sets `_state = DESTROYED`. -/
def destroy (l : GltfBufferViewLoader) : GltfBufferViewLoader :=
  { l.unload with state := .destroyed }

/-- The asynchronous events that can hit a buffer view loader after `load()`:
resolution or rejection of the parent buffer loader's promise, and
`destroy()`. -/
inductive Event
  | bufferResolved (bufferTypedArray : Uint8ArrayView)
  | bufferFailed (error : LoadError)
  | destroyEv

/-- One event step. -/
def step (l : GltfBufferViewLoader) : Event → GltfBufferViewLoader
  | .bufferResolved t => l.onBufferResolved t
  | .bufferFailed e => l.onBufferFailed e
  | .destroyEv => l.destroy

/-- Run a sequence of events. -/
def run (l : GltfBufferViewLoader) (events : List Event) : GltfBufferViewLoader :=
  events.foldl step l

end GltfBufferViewLoader

/-! ## GltfImageLoader (Source/Scene/GltfImageLoader.js) -/

/-- `getMimeTypeFromTypedArray(typedArray)`: sequential magic-byte sniffing.
Out-of-range reads model JavaScript `undefined`, which compares unequal to
every byte value.  `header = subarray(0, 2)`, `webpHeaderRIFFChars =
subarray(0, 4)`, `webpHeaderWEBPChars = subarray(8, 12)`. -/
def getMimeTypeFromTypedArray (typedArray : List Nat) : Except String String :=
  let b : Nat → Option Nat := fun i => typedArray.get? i
  if b 0 = some 0x42 ∧ b 1 = some 0x49 then .ok "image/bmp"
  else if b 0 = some 0x47 ∧ b 1 = some 0x49 then .ok "image/gif"
  else if b 0 = some 0xff ∧ b 1 = some 0xd8 then .ok "image/jpeg"
  else if b 0 = some 0x89 ∧ b 1 = some 0x50 then .ok "image/png"
  else if b 0 = some 0xab ∧ b 1 = some 0x4b then .ok "image/ktx"
  else if b 0 = some 0x48 ∧ b 1 = some 0x78 then .ok "image/crn"
  else if b 0 = some 0x73 ∧ b 1 = some 0x42 then .ok "image/basis"
  else if b 0 = some 0x52 ∧ b 1 = some 0x49 ∧ b 2 = some 0x46 ∧ b 3 = some 0x46 ∧
          b 8 = some 0x57 ∧ b 9 = some 0x45 ∧ b 10 = some 0x42 ∧ b 11 = some 0x50 then
    .ok "image/webp"
  else .error "Image data does not have valid header"

/-- The decode path `loadImageFromBufferTypedArray` dispatches to. -/
inductive ImageDecodePath
  | loadKTX
  | loadCRN
  | loadImageFromTypedArray (mimeType : String)
  deriving DecidableEq, Repr

/-- `loadImageFromBufferTypedArray(typedArray)`: sniffs the MIME type (the
`RuntimeError` from `getMimeTypeFromTypedArray` propagates), then dispatches
to `loadKTX`, `loadCRN`, or `loadImageFromTypedArray`. -/
def loadImageFromBufferTypedArray (typedArray : List Nat) : Except String ImageDecodePath :=
  match getMimeTypeFromTypedArray typedArray with
  | .error e => .error e
  | .ok mimeType =>
    if mimeType = "image/ktx" then .ok .loadKTX
    else if mimeType = "image/crn" then .ok .loadCRN
    else .ok (.loadImageFromTypedArray mimeType)

/-- A decoded image result (Image, ImageBitmap or CompressedTextureBuffer),
kept abstract. -/
structure DecodedImage where
  id : Nat
  deriving DecidableEq, Repr

/-- The mutable fields of `GltfImageLoader` (embedded buffer-view path),
together with acquire/release ledgers for its buffer view cache reference. -/
structure GltfImageLoader where
  bufferViewLoader : Option Unit
  uri : Option String
  image : Option DecodedImage
  gltf : Option Unit
  state : ResourceLoaderState
  promise : PromiseState
  acquires : Nat
  releases : Nat
  deriving DecidableEq, Repr

namespace GltfImageLoader

/-- The constructor. -/
def fromOptions : GltfImageLoader :=
  { bufferViewLoader := none
    uri := none
    image := none
    gltf := some ()
    state := .unloaded
    promise := .pending
    acquires := 0
    releases := 0 }

/-- `unload(imageLoader)`: releases the buffer view cache reference if
defined, then clears `_bufferViewLoader`, `_uri`, `_image` and `_gltf`. -/
def unload (l : GltfImageLoader) : GltfImageLoader :=
  { l with
    releases := if l.bufferViewLoader.isSome then l.releases + 1 else l.releases
    bufferViewLoader := none
    uri := none
    image := none
    gltf := none }

/-- `loadFromBufferView`: acquires the buffer view loader from the cache with
`keepResident: false`, sets `_state = LOADING` and stores the handle. -/
def load (l : GltfImageLoader) : GltfImageLoader :=
  { l with
    acquires := l.acquires + 1
    bufferViewLoader := some ()
    state := .loading }

/-- The first success continuation (`bufferViewLoader.promise.then`): checks
for DESTROYED and unloads if so; otherwise it only chains the asynchronous
image decode (no state mutation). -/
def onBufferViewResolved (l : GltfImageLoader) : GltfImageLoader :=
  if l.state = .destroyed then l.unload else l

/-- The second success continuation (decode of
`loadImageFromBufferTypedArray` resolved): checks for DESTROYED, otherwise
unloads everything except the image, stores the image, transitions to READY
and resolves. -/
def onImageDecoded (l : GltfImageLoader) (image : DecodedImage) : GltfImageLoader :=
  if l.state = .destroyed then
    l.unload
  else
    let l := l.unload
    { l with
      image := some image
      state := .ready
      promise := l.promise.resolve }

/-- `handleError(imageLoader, error, errorMessage)`: unloads, sets
`_state = FAILED`, rejects with the annotated error. -/
def handleError (l : GltfImageLoader) (error : LoadError) (errorMessage : String) :
    GltfImageLoader :=
  let l := l.unload
  { l with
    state := .failed
    promise := l.promise.reject (ResourceLoader.getError error errorMessage) }

/-- The failure continuation of the embedded path (`.otherwise`). -/
def onLoadFailed (l : GltfImageLoader) (error : LoadError) : GltfImageLoader :=
  l.handleError error "Failed to load embedded image"

/-- `isDestroyed()`: always returns false. -/
def isDestroyed (_ : GltfImageLoader) : Bool :=
  false

/-- `destroy()`: unloads and sets `_state = DESTROYED`. -/
def destroy (l : GltfImageLoader) : GltfImageLoader :=
  { l.unload with state := .destroyed }

/-- The asynchronous events that can hit an image loader after `load()`. -/
inductive Event
  | bufferViewResolved
  | imageDecoded (image : DecodedImage)
  | loadFailed (error : LoadError)
  | destroyEv

/-- One event step. -/
def step (l : GltfImageLoader) : Event → GltfImageLoader
  | .bufferViewResolved => l.onBufferViewResolved
  | .imageDecoded i => l.onImageDecoded i
  | .loadFailed e => l.onLoadFailed e
  | .destroyEv => l.destroy

/-- Run a sequence of events. -/
def run (l : GltfImageLoader) (events : List Event) : GltfImageLoader :=
  events.foldl step l

end GltfImageLoader

/-! ## GltfDracoLoader -/

/-- The decoded Draco data (attribute/index buffers), kept abstract. -/
structure DracoDecodedData where
  id : Nat
  deriving DecidableEq, Repr

/-- The mutable fields of `GltfDracoLoader`, together with acquire/release
ledgers for its buffer view cache reference. -/
structure GltfDracoLoader where
  bufferViewLoader : Option Unit
  bufferViewTypedArray : Option (List Nat)
  decodePromise : Option Unit
  decodedData : Option DracoDecodedData
  gltf : Option Unit
  state : ResourceLoaderState
  promise : PromiseState
  acquires : Nat
  releases : Nat
  deriving DecidableEq, Repr

namespace GltfDracoLoader

/-- The constructor. -/
def fromOptions : GltfDracoLoader :=
  { bufferViewLoader := none
    bufferViewTypedArray := none
    decodePromise := none
    decodedData := none
    gltf := some ()
    state := .unloaded
    promise := .pending
    acquires := 0
    releases := 0 }

/-- `unload(dracoLoader)`: releases the buffer view cache reference if
defined, then clears `_bufferViewLoader`, `_bufferViewTypedArray`,
`_decodedData` and `_gltf` (`_decodePromise` is left as is). -/
def unload (l : GltfDracoLoader) : GltfDracoLoader :=
  { l with
    releases := if l.bufferViewLoader.isSome then l.releases + 1 else l.releases
    bufferViewLoader := none
    bufferViewTypedArray := none
    decodedData := none
    gltf := none }

/-- `load()`: acquires the buffer view loader from the cache with
`keepResident: false`, sets `_state = LOADING` and stores the handle. -/
def load (l : GltfDracoLoader) : GltfDracoLoader :=
  { l with
    acquires := l.acquires + 1
    bufferViewLoader := some ()
    state := .loading }

/-- The success continuation of `load()` (`bufferViewLoader.promise.then`):
checks for DESTROYED, otherwise stores the buffer view's typed array and
waits for the decode to be started in the update loop.  The state is not
changed here. -/
def onBufferViewResolved (l : GltfDracoLoader) (typedArray : List Nat) : GltfDracoLoader :=
  if l.state = .destroyed then
    l.unload
  else
    { l with bufferViewTypedArray := some typedArray }

/-- `handleError(dracoLoader, error)`: unloads, sets `_state = FAILED`,
rejects with the annotated "Failed to load Draco" error. -/
def handleError (l : GltfDracoLoader) (error : LoadError) : GltfDracoLoader :=
  let l := l.unload
  { l with
    state := .failed
    promise := l.promise.reject (ResourceLoader.getError error "Failed to load Draco") }

/-- `update(frameState)`: returns unchanged when the typed array is not yet
available or a decode is already in flight; then attempts to schedule the
decode task and returns unchanged if it cannot be scheduled this frame
(`if (!defined(decodePromise)) { return; }`; in the source the task creation
is stubbed as `when.resolve() // TODO`, so `canSchedule` abstracts whether
that guarded creation produced a task); otherwise records the in-flight
decode promise. -/
def update (l : GltfDracoLoader) (canSchedule : Bool) : GltfDracoLoader :=
  if l.bufferViewTypedArray.isNone then l
  else if l.decodePromise.isSome then l
  else if !canSchedule then l
  else { l with decodePromise := some () }

/-- The success continuation of the decode promise: checks for DESTROYED,
otherwise unloads everything except the decoded data, stores it, transitions
to READY and resolves. -/
def onDecodeResolved (l : GltfDracoLoader) (decodedData : DracoDecodedData) : GltfDracoLoader :=
  if l.state = .destroyed then
    l.unload
  else
    let l := l.unload
    { l with
      decodedData := some decodedData
      state := .ready
      promise := l.promise.resolve }

/-- `isDestroyed()`: always returns false. -/
def isDestroyed (_ : GltfDracoLoader) : Bool :=
  false

/-- `destroy()`: unloads and sets `_state = DESTROYED`. -/
def destroy (l : GltfDracoLoader) : GltfDracoLoader :=
  { l.unload with state := .destroyed }

/-- The asynchronous events that can hit a Draco loader after `load()`. -/
inductive Event
  | bufferViewResolved (typedArray : List Nat)
  | updateEv (canSchedule : Bool)
  | decodeResolved (decodedData : DracoDecodedData)
  | loadFailed (error : LoadError)
  | destroyEv

/-- One event step. -/
def step (l : GltfDracoLoader) : Event → GltfDracoLoader
  | .bufferViewResolved t => l.onBufferViewResolved t
  | .updateEv c => l.update c
  | .decodeResolved d => l.onDecodeResolved d
  | .loadFailed e => l.handleError e
  | .destroyEv => l.destroy

/-- Run a sequence of events. -/
def run (l : GltfDracoLoader) (events : List Event) : GltfDracoLoader :=
  events.foldl step l

end GltfDracoLoader

/-! ## GltfJsonLoader -/

/-- A buffer `uri` string, split by kind: a data URI or an external path. -/
inductive BufferUri
  | dataUri (payloadId : Nat)
  | external (path : String)
  deriving DecidableEq, Repr

/-- A glTF buffer entry as seen by `GltfJsonLoader`: an optional `uri` and
the optional `extras._pipeline.source` byte array. -/
structure GltfBuffer where
  uri : Option BufferUri
  source : Option (List Nat)
  deriving DecidableEq, Repr

/-- The glTF JSON document, reduced to what `GltfJsonLoader` inspects:
`asset.version` and the buffers. -/
structure Gltf where
  version : String
  buffers : List GltfBuffer
  deriving DecidableEq, Repr

/-- Modelled from the spec: `Core/isDataUri.js` is not among the provided
source files; it tests whether a uri string is a data URI, here a match on
the structured uri kind. -/
def isDataUri : BufferUri → Bool
  | .dataUri _ => true
  | .external _ => false

/-- The mutable fields of `GltfJsonLoader`, together with ledgers.
`externalAcquires` records the `keepResident` flag of each
`resourceCache.loadExternalBuffer` call, `embeddedAcquires` of each
`resourceCache.loadEmbeddedBuffer` call; `bufferLoaders` models the
`_bufferLoaders` array of held handles; `releases` counts
`resourceCache.unload` calls. -/
structure GltfJsonLoader where
  url : String
  keepResident : Bool
  gltf : Option Gltf
  bufferLoaders : List Unit
  state : ResourceLoaderState
  promise : PromiseState
  externalAcquires : List Bool
  embeddedAcquires : List Bool
  releases : Nat
  deriving DecidableEq, Repr

namespace GltfJsonLoader

/-- The constructor (`keepResident` defaults to false). -/
def fromOptions (url : String) (keepResident : Bool) : GltfJsonLoader :=
  { url := url
    keepResident := keepResident
    gltf := none
    bufferLoaders := []
    state := .unloaded
    promise := .pending
    externalAcquires := []
    embeddedAcquires := []
    releases := 0 }

/-- `unload(gltfJsonLoader)`: releases every handle in `_bufferLoaders` and
clears `_gltf`.  The source then assigns the empty array to the misspelled
property `_bufferLoader` (not `_bufferLoaders`), so the `_bufferLoaders`
array keeps its contents. -/
def unload (l : GltfJsonLoader) : GltfJsonLoader :=
  { l with
    releases := l.releases + l.bufferLoaders.length
    gltf := none }

/-- `load()`: sets `_state = LOADING` and starts the fetch. -/
def load (l : GltfJsonLoader) : GltfJsonLoader :=
  { l with state := .loading }

/-- `decodeDataUris(gltf)`: for each buffer whose uri is a data URI, deletes
the uri and stores the fetched bytes as the pipeline source.
`Resource.fetchArrayBuffer` is an external collaborator, modelled by the
`fetchDataUri` environment. -/
def decodeDataUris (gltf : Gltf) (fetchDataUri : BufferUri → List Nat) : Gltf :=
  { gltf with
    buffers := gltf.buffers.map fun buffer =>
      match buffer.uri with
      | some uri =>
        if isDataUri uri then { uri := none, source := some (fetchDataUri uri) } else buffer
      | none => buffer }

/-- Modelled from the spec: `updateVersion` (glTF-pipeline) is an external
collaborator ("glTF JSON schema upgrade/normalization" is out of scope); it
upgrades the document in place to version 2.0. -/
def updateVersion (gltf : Gltf) : Gltf :=
  { gltf with version := "2.0" }

/-- `upgradeVersion(gltfJsonLoader, gltf)`: a no-op for 2.0 documents;
otherwise loads every external buffer without a pipeline source through the
cache with `keepResident: false`, pushes the handle onto `_bufferLoaders`,
stores the fetched bytes as the buffer's pipeline source, and finally runs
`updateVersion`.  The `externalBytes` environment gives the typed array each
buffer loader's promise resolves with.  `upgradeBufferStep` is the body of the
`ForEach.buffer` loop. -/
def upgradeBufferStep (externalBytes : BufferUri → List Nat)
    (acc : GltfJsonLoader × List GltfBuffer) (buffer : GltfBuffer) :
    GltfJsonLoader × List GltfBuffer :=
  match buffer.source, buffer.uri with
  | none, some uri =>
    ({ acc.1 with
        externalAcquires := acc.1.externalAcquires ++ [false]
        bufferLoaders := acc.1.bufferLoaders ++ [()] },
     acc.2 ++ [{ buffer with source := some (externalBytes uri) }])
  | _, _ => (acc.1, acc.2 ++ [buffer])

def upgradeVersion (l : GltfJsonLoader) (gltf : Gltf) (externalBytes : BufferUri → List Nat) :
    GltfJsonLoader × Gltf :=
  if gltf.version = "2.0" then
    (l, gltf)
  else
    let result := gltf.buffers.foldl (upgradeBufferStep externalBytes) (l, [])
    (result.1, updateVersion { gltf with buffers := result.2 })

/-- `loadEmbeddedBuffers(gltfJsonLoader, gltf)`: for each buffer with a
pipeline source and no uri, acquires an embedded buffer cache reference with
`keepResident: this._keepResident` and pushes the handle onto
`_bufferLoaders`; `embeddedBufferStep` is the body of the `ForEach.buffer`
loop. -/
def embeddedBufferStep (acc : GltfJsonLoader) (buffer : GltfBuffer) : GltfJsonLoader :=
  if buffer.source.isSome ∧ buffer.uri.isNone then
    { acc with
      embeddedAcquires := acc.embeddedAcquires ++ [acc.keepResident]
      bufferLoaders := acc.bufferLoaders ++ [()] }
  else acc

def loadEmbeddedBuffers (l : GltfJsonLoader) (gltf : Gltf) : GltfJsonLoader :=
  gltf.buffers.foldl embeddedBufferStep l

/-- `processGltf` after parsing (parseGlb / getJsonFromTypedArray,
addPipelineExtras, addDefaults and removePipelineExtras are out-of-scope
collaborators that do not touch the cache): decode data URIs, upgrade the
version, then load the embedded buffers; returns the loader with its ledger
updates and the processed document. -/
def processGltf (l : GltfJsonLoader) (gltf : Gltf) (fetchDataUri : BufferUri → List Nat)
    (externalBytes : BufferUri → List Nat) : GltfJsonLoader × Gltf :=
  let gltf := decodeDataUris gltf fetchDataUri
  let result := upgradeVersion l gltf externalBytes
  (loadEmbeddedBuffers result.1 result.2, result.2)

/-- The success continuation of the fetch (`fetchArrayBuffer().then`): checks
for DESTROYED and unloads if so; otherwise it runs `processGltf`, whose
cache effects are recorded on the loader. -/
def onFetched (l : GltfJsonLoader) (gltf : Gltf) (fetchDataUri : BufferUri → List Nat)
    (externalBytes : BufferUri → List Nat) : GltfJsonLoader :=
  if l.state = .destroyed then l.unload
  else (processGltf l gltf fetchDataUri externalBytes).1

/-- The second success continuation (the processed glTF is available): checks
for DESTROYED, otherwise stores the glTF, transitions to READY and
resolves. -/
def onProcessed (l : GltfJsonLoader) (gltf : Gltf) : GltfJsonLoader :=
  if l.state = .destroyed then
    l.unload
  else
    { l with
      gltf := some gltf
      state := .ready
      promise := l.promise.resolve }

/-- The failure continuation (`.otherwise`): unloads, sets `_state = FAILED`,
rejects with the error annotated with "Failed to load glTF: " and the url. -/
def onLoadFailed (l : GltfJsonLoader) (error : LoadError) : GltfJsonLoader :=
  let l' := l.unload
  { l' with
    state := .failed
    promise :=
      l'.promise.reject (ResourceLoader.getError error ("Failed to load glTF: " ++ l.url)) }

/-- `isDestroyed()`: always returns false. -/
def isDestroyed (_ : GltfJsonLoader) : Bool :=
  false

/-- `destroy()`: unloads and sets `_state = DESTROYED`. -/
def destroy (l : GltfJsonLoader) : GltfJsonLoader :=
  { l.unload with state := .destroyed }

/-- The asynchronous events that can hit a JSON loader after `load()`. -/
inductive Event
  | fetched (gltf : Gltf)
  | processed (gltf : Gltf)
  | loadFailed (error : LoadError)
  | destroyEv

/-- One event step (with trivial fetch environments; they do not affect the
state machine's control flow). -/
def step (l : GltfJsonLoader) : Event → GltfJsonLoader
  | .fetched g => l.onFetched g (fun _ => []) (fun _ => [])
  | .processed g => l.onProcessed g
  | .loadFailed e => l.onLoadFailed e
  | .destroyEv => l.destroy

/-- Run a sequence of events. -/
def run (l : GltfJsonLoader) (events : List Event) : GltfJsonLoader :=
  events.foldl step l

end GltfJsonLoader

/-! ## GltfLoader (Source/Scene/GltfLoader.js): vertex attributes and indices

JavaScript property reads on `undefined` throw a `TypeError`; the embedding
returns `Except String` where the source can hit such a read. -/

/-- A glTF accessor, reduced to the fields `loadVertexAttribute` and
`loadIndices` read.  `bufferView = none` models an accessor without a buffer
view. -/
structure Accessor where
  bufferView : Option Nat
  byteOffset : Nat
  componentType : Nat
  normalized : Bool
  count : Nat
  type : String
  deriving DecidableEq, Repr

/-- A glTF bufferView JSON entry, reduced to the field `loadVertexAttribute`
reads (`byteStride` may itself be `undefined`). -/
structure BufferViewJson where
  byteStride : Option Nat
  deriving DecidableEq, Repr

/-- The glTF JSON as seen by `loadVertexAttribute` / `loadIndices`. -/
structure GltfJson where
  accessors : List Accessor
  bufferViews : List BufferViewJson
  deriving DecidableEq, Repr

/-- A handle returned by `ResourceCache.loadVertexBuffer` /
`loadIndexBuffer`, kept abstract. -/
structure BufferCacheResource where
  accessorId : Nat
  bufferViewId : Option Nat
  draco : Option Nat
  deriving DecidableEq, Repr

/-- `loadVertexBuffer(loader, gltf, accessorId, semantic, draco)`: returns
`undefined` (no loader issued) when there is neither a Draco extension nor a
buffer view; otherwise issues a `ResourceCache.loadVertexBuffer` request.
Reading `accessor.bufferView` on an undefined accessor throws. -/
def loadVertexBuffer (gltf : GltfJson) (accessorId : Nat) (draco : Option Nat) :
    Except String (Option BufferCacheResource) :=
  match gltf.accessors.get? accessorId with
  | none => .error "TypeError: Cannot read property of undefined accessor"
  | some accessor =>
    if draco.isNone ∧ accessor.bufferView.isNone then
      .ok none
    else
      .ok (some { accessorId := accessorId, bufferViewId := accessor.bufferView, draco := draco })

/-- The `ModelComponents.VertexAttribute` record populated by
`loadVertexAttribute`. -/
structure VertexAttribute where
  semantic : String
  constantValue : Option Nat
  byteOffset : Nat
  byteStride : Option Nat
  componentType : Nat
  normalized : Bool
  count : Nat
  type : String
  cacheResource : Option BufferCacheResource
  deriving DecidableEq, Repr

/-- `loadVertexAttribute(loader, gltf, accessorId, semantic, draco)`: issues
the vertex buffer load (or records a constant value of 0 when none is
issued), then reads `gltf.bufferViews[accessor.bufferView].byteStride`
unconditionally — `gltf.bufferViews[undefined]` is `undefined`, and reading
`.byteStride` on it throws a `TypeError`. -/
def loadVertexAttribute (gltf : GltfJson) (accessorId : Nat) (semantic : String)
    (draco : Option Nat) : Except String VertexAttribute :=
  match loadVertexBuffer gltf accessorId draco with
  | .error e => .error e
  | .ok vertexBufferCacheResource =>
    let constantValue : Option Nat :=
      if vertexBufferCacheResource.isSome then none else some 0
    match gltf.accessors.get? accessorId with
    | none => .error "TypeError: Cannot read property of undefined accessor"
    | some accessor =>
      match accessor.bufferView.bind gltf.bufferViews.get? with
      | none => .error "TypeError: Cannot read property byteStride of undefined"
      | some bufferView =>
        .ok
          { semantic := semantic
            constantValue := constantValue
            byteOffset := accessor.byteOffset
            byteStride := bufferView.byteStride
            componentType := accessor.componentType
            normalized := accessor.normalized
            count := accessor.count
            type := accessor.type
            cacheResource := vertexBufferCacheResource }

/-- `loadIndexBuffer(loader, gltf, accessorId, draco)`: same guard as
`loadVertexBuffer`. -/
def loadIndexBuffer (gltf : GltfJson) (accessorId : Nat) (draco : Option Nat) :
    Except String (Option BufferCacheResource) :=
  match gltf.accessors.get? accessorId with
  | none => .error "TypeError: Cannot read property of undefined accessor"
  | some accessor =>
    if draco.isNone ∧ accessor.bufferView.isNone then
      .ok none
    else
      .ok (some { accessorId := accessorId, bufferViewId := accessor.bufferView, draco := draco })

/-- The `ModelComponents.Indices` record populated by `loadIndices`. -/
structure Indices where
  constantValue : Option Nat
  indexDatatype : Nat
  count : Nat
  cacheResource : Option BufferCacheResource
  deriving DecidableEq, Repr

/-- `loadIndices(loader, gltf, accessorId, draco)`: issues the index buffer
load (or records a constant value of 0 when none is issued) and fills the
`Indices` record; it performs no bufferView dereference. -/
def loadIndices (gltf : GltfJson) (accessorId : Nat) (draco : Option Nat) :
    Except String Indices :=
  match loadIndexBuffer gltf accessorId draco with
  | .error e => .error e
  | .ok indexBufferCacheResource =>
    let constantValue : Option Nat :=
      if indexBufferCacheResource.isSome then none else some 0
    match gltf.accessors.get? accessorId with
    | none => .error "TypeError: Cannot read property of undefined accessor"
    | some accessor =>
      .ok
        { constantValue := constantValue
          indexDatatype := accessor.componentType
          count := accessor.count
          cacheResource := indexBufferCacheResource }

/-! ## Image signature predicates (the documented magic-byte signatures) -/

/-- Bytes 0x42 0x49 at offsets 0-1 (BMP). -/
def sigBMP (t : List Nat) : Prop :=
  t.get? 0 = some 0x42 ∧ t.get? 1 = some 0x49

/-- Bytes 0x47 0x49 at offsets 0-1 (GIF). -/
def sigGIF (t : List Nat) : Prop :=
  t.get? 0 = some 0x47 ∧ t.get? 1 = some 0x49

/-- Bytes 0xFF 0xD8 at offsets 0-1 (JPEG). -/
def sigJPEG (t : List Nat) : Prop :=
  t.get? 0 = some 0xff ∧ t.get? 1 = some 0xd8

/-- Bytes 0x89 0x50 at offsets 0-1 (PNG). -/
def sigPNG (t : List Nat) : Prop :=
  t.get? 0 = some 0x89 ∧ t.get? 1 = some 0x50

/-- Bytes 0xAB 0x4B at offsets 0-1 (KTX). -/
def sigKTX (t : List Nat) : Prop :=
  t.get? 0 = some 0xab ∧ t.get? 1 = some 0x4b

/-- Bytes 0x48 0x78 at offsets 0-1 (CRN). -/
def sigCRN (t : List Nat) : Prop :=
  t.get? 0 = some 0x48 ∧ t.get? 1 = some 0x78

/-- Bytes 0x73 0x42 at offsets 0-1 (Basis). -/
def sigBasis (t : List Nat) : Prop :=
  t.get? 0 = some 0x73 ∧ t.get? 1 = some 0x42

/-- Bytes "RIFF" at offsets 0-3 and "WEBP" at offsets 8-11 (WebP). -/
def sigWebP (t : List Nat) : Prop :=
  t.get? 0 = some 0x52 ∧ t.get? 1 = some 0x49 ∧ t.get? 2 = some 0x46 ∧ t.get? 3 = some 0x46 ∧
  t.get? 8 = some 0x57 ∧ t.get? 9 = some 0x45 ∧ t.get? 10 = some 0x42 ∧ t.get? 11 = some 0x50

/-- Any of the eight documented signatures. -/
def sigAny (t : List Nat) : Prop :=
  sigBMP t ∨ sigGIF t ∨ sigJPEG t ∨ sigPNG t ∨ sigKTX t ∨ sigCRN t ∨ sigBasis t ∨ sigWebP t

/-! ## Shared safety invariant for destroyed loaders -/

/-- Once a loader is DESTROYED with its promise unresolved, every reachable
later configuration either is still DESTROYED with the promise unresolved, or
has a rejected (hence settled, never-again-resolvable) promise. -/
def destroyedSafe (state : ResourceLoaderState) (promise : PromiseState) : Prop :=
  (state = .destroyed ∧ promise.isResolved = false) ∨ ∃ e, promise = .rejected e

/-! # Theorems -/

/-- Auxiliary slicing fact: taking `L` bytes after dropping `o` from a view of
`len` bytes at offset `off` gives the bytes at offset `off + o`, provided
`o + L ≤ len`. -/
theorem take_drop_slice (backing : List Nat) (off len o L : Nat) (h : o + L ≤ len) :
    ((((backing.drop off).take len).drop o).take L) = (backing.drop (off + o)).take L := by
  rw [List.drop_take, List.take_take, List.drop_drop]
  congr 1
  omega

/-- C2: after the buffer view loader reaches READY, its typed array is the
zero-copy sub-view of the parent buffer at `byteOffset + o` of length `L`
(same backing memory, contents exactly bytes `[o, o+L)` of the parent), the
parent buffer loader's cache reference is still held (no release has
happened), and it is released exactly by the loader's own `unload`. -/
theorem c2_bufferView_slice_and_retention (o L : Nat) (parent : Uint8ArrayView)
    (h : o + L ≤ parent.byteLength) :
    ((GltfBufferViewLoader.fromOptions o L).load.onBufferResolved parent).typedArray =
      some ⟨parent.backing, parent.byteOffset + o, L⟩ ∧
    (Uint8ArrayView.mk parent.backing (parent.byteOffset + o) L).bytes =
      (parent.bytes.drop o).take L ∧
    ((GltfBufferViewLoader.fromOptions o L).load.onBufferResolved parent).state = .ready ∧
    ((GltfBufferViewLoader.fromOptions o L).load.onBufferResolved parent).promise = .resolved ∧
    ((GltfBufferViewLoader.fromOptions o L).load.onBufferResolved parent).bufferLoader =
      some () ∧
    ((GltfBufferViewLoader.fromOptions o L).load.onBufferResolved parent).releases = 0 ∧
    ((GltfBufferViewLoader.fromOptions o L).load.onBufferResolved parent).unload.bufferLoader =
      none ∧
    ((GltfBufferViewLoader.fromOptions o L).load.onBufferResolved parent).unload.releases = 1 := by
  refine ⟨rfl, ?_, rfl, rfl, rfl, rfl, rfl, rfl⟩
  show (parent.backing.drop (parent.byteOffset + o)).take L = _
  unfold Uint8ArrayView.bytes
  rw [take_drop_slice parent.backing parent.byteOffset parent.byteLength o L h]

/-- Witness for C2 at `o = 1`, `L = 2` over the parent view
`⟨[10, 20, 30, 40, 50], 1, 4⟩`. -/
theorem c2_witness :
    ((GltfBufferViewLoader.fromOptions 1 2).load.onBufferResolved
        ⟨[10, 20, 30, 40, 50], 1, 4⟩).typedArray = some ⟨[10, 20, 30, 40, 50], 2, 2⟩ ∧
    (Uint8ArrayView.mk [10, 20, 30, 40, 50] 2 2).bytes =
      (((Uint8ArrayView.mk [10, 20, 30, 40, 50] 1 4).bytes.drop 1).take 2) ∧
    ((GltfBufferViewLoader.fromOptions 1 2).load.onBufferResolved
        ⟨[10, 20, 30, 40, 50], 1, 4⟩).state = .ready ∧
    ((GltfBufferViewLoader.fromOptions 1 2).load.onBufferResolved
        ⟨[10, 20, 30, 40, 50], 1, 4⟩).promise = .resolved ∧
    ((GltfBufferViewLoader.fromOptions 1 2).load.onBufferResolved
        ⟨[10, 20, 30, 40, 50], 1, 4⟩).bufferLoader = some () ∧
    ((GltfBufferViewLoader.fromOptions 1 2).load.onBufferResolved
        ⟨[10, 20, 30, 40, 50], 1, 4⟩).releases = 0 ∧
    ((GltfBufferViewLoader.fromOptions 1 2).load.onBufferResolved
        ⟨[10, 20, 30, 40, 50], 1, 4⟩).unload.bufferLoader = none ∧
    ((GltfBufferViewLoader.fromOptions 1 2).load.onBufferResolved
        ⟨[10, 20, 30, 40, 50], 1, 4⟩).unload.releases = 1 :=
  c2_bufferView_slice_and_retention 1 2 ⟨[10, 20, 30, 40, 50], 1, 4⟩ (by decide)

/-- C5 (counterexample): destroy the buffer view loader while its parent
buffer load is in flight, then let the dependency fail: the failure is NOT
swallowed — the error handler moves the state from DESTROYED to FAILED and
rejects the promise. -/
theorem c5_counterexample :
    (((GltfBufferViewLoader.fromOptions 0 1).load.destroy).onBufferFailed
        (.failure "network error")).state = .failed ∧
    (((GltfBufferViewLoader.fromOptions 0 1).load.destroy).onBufferFailed
        (.failure "network error")).promise =
      .rejected (.annotated "Failed to load buffer view" (.failure "network error")) :=
  ⟨rfl, rfl⟩

/-- C6 (counterexample): once the Draco loader's byte range is available and
the decode task has been started by `update()`, the loader's state is
LOADING, not PROCESSING. -/
theorem c6_counterexample :
    ((GltfDracoLoader.fromOptions.load.onBufferViewResolved [1, 2, 3]).update
        true).decodePromise = some () ∧
    ((GltfDracoLoader.fromOptions.load.onBufferViewResolved [1, 2, 3]).update
        true).state = .loading ∧
    ¬ ((GltfDracoLoader.fromOptions.load.onBufferViewResolved [1, 2, 3]).update
        true).state = .processing :=
  ⟨rfl, rfl, by decide⟩

/-- C7 (counterexample): a legacy (non-2.0) document with one external buffer
is upgraded to 2.0, yet the external-buffer cache reference acquired for the
upgrade is still held (no release has happened) once processing completes; it
is not released after the upgrade transform. -/
theorem c7_counterexample :
    (GltfJsonLoader.processGltf ((GltfJsonLoader.fromOptions "legacy.gltf" false).load)
        ⟨"1.0", [⟨some (.external "external.bin"), none⟩]⟩ (fun _ => []) (fun _ => [7, 8, 9])).2.version =
      "2.0" ∧
    (GltfJsonLoader.processGltf ((GltfJsonLoader.fromOptions "legacy.gltf" false).load)
        ⟨"1.0", [⟨some (.external "external.bin"), none⟩]⟩ (fun _ => []) (fun _ => [7, 8, 9])).1.releases =
      0 ∧
    (GltfJsonLoader.processGltf ((GltfJsonLoader.fromOptions "legacy.gltf" false).load)
        ⟨"1.0", [⟨some (.external "external.bin"), none⟩]⟩ (fun _ => [])
        (fun _ => [7, 8, 9])).1.bufferLoaders.length = 1 ∧
    (GltfJsonLoader.processGltf ((GltfJsonLoader.fromOptions "legacy.gltf" false).load)
        ⟨"1.0", [⟨some (.external "external.bin"), none⟩]⟩ (fun _ => [])
        (fun _ => [7, 8, 9])).1.externalAcquires = [false] := by
  refine ⟨rfl, rfl, rfl, rfl⟩

/-- C8: evaluating `loadVertexAttribute` at an accessor with no buffer view
and no Draco extension: no loader is issued (`loadVertexBuffer` returns
`undefined`), but the unconditional `bufferView.byteStride` read then throws
a TypeError, so the call does not return the constant-zero attribute the
comment in the code ("Accessors default to all zeros when there is no buffer
view") promises.  `loadIndices` on the same kind of accessor does return
normally with `constantValue = 0` and no cache resource. -/
theorem c8_missing_bufferView_evaluation :
    loadVertexBuffer ⟨[⟨none, 0, 5126, false, 3, "VEC3"⟩], []⟩ 0 none = .ok none ∧
    loadVertexAttribute ⟨[⟨none, 0, 5126, false, 3, "VEC3"⟩], []⟩ 0 "POSITION" none =
      .error "TypeError: Cannot read property byteStride of undefined" ∧
    loadIndices ⟨[⟨none, 0, 5123, false, 3, "SCALAR"⟩], []⟩ 0 none =
      .ok { constantValue := some 0, indexDatatype := 5123, count := 3, cacheResource := none } ∧
    loadVertexAttribute ⟨[⟨some 0, 4, 5126, false, 3, "VEC3"⟩], [⟨some 12⟩]⟩ 0 "POSITION" none =
      .ok
        { semantic := "POSITION"
          constantValue := none
          byteOffset := 4
          byteStride := some 12
          componentType := 5126
          normalized := false
          count := 3
          type := "VEC3"
          cacheResource := some { accessorId := 0, bufferViewId := some 0, draco := none } } :=
  ⟨rfl, rfl, rfl, rfl⟩

/-- C9: for every loader (buffer view, image, JSON, Draco), the prototype
method `isDestroyed()` returns false in every state, including after
`destroy()` has been called. -/
theorem c9_isDestroyed_always_false :
    (∀ (l : GltfBufferViewLoader) (s : ResourceLoaderState),
      ({ l with state := s } : GltfBufferViewLoader).isDestroyed = false ∧
        l.destroy.isDestroyed = false) ∧
    (∀ (l : GltfImageLoader) (s : ResourceLoaderState),
      ({ l with state := s } : GltfImageLoader).isDestroyed = false ∧
        l.destroy.isDestroyed = false) ∧
    (∀ (l : GltfJsonLoader) (s : ResourceLoaderState),
      ({ l with state := s } : GltfJsonLoader).isDestroyed = false ∧
        l.destroy.isDestroyed = false) ∧
    (∀ (l : GltfDracoLoader) (s : ResourceLoaderState),
      ({ l with state := s } : GltfDracoLoader).isDestroyed = false ∧
        l.destroy.isDestroyed = false) :=
  ⟨fun _ _ => ⟨rfl, rfl⟩, fun _ _ => ⟨rfl, rfl⟩, fun _ _ => ⟨rfl, rfl⟩, fun _ _ => ⟨rfl, rfl⟩⟩

/-- C10: evaluating the code at a double-unload scenario.  A JSON loader that
acquired one external-buffer reference during a legacy upgrade releases it
once on the failure path (`unload` inside the `.otherwise` handler) and then
a second time when `destroy()` runs, because `unload` assigns the cleared
array to the misspelled `_bufferLoader` property and `_bufferLoaders` keeps
its contents.  The buffer view, image and Draco loaders do clear their handle
field, so their `unload` releases at most once. -/
theorem c10_json_unload_double_release :
    ((GltfJsonLoader.fromOptions "model.gltf" false).load.onFetched
        ⟨"1.0", [⟨some (.external "buffer.bin"), none⟩]⟩ (fun _ => []) (fun _ => [])).bufferLoaders.length =
      1 ∧
    ((GltfJsonLoader.fromOptions "model.gltf" false).load.onFetched
        ⟨"1.0", [⟨some (.external "buffer.bin"), none⟩]⟩ (fun _ => []) (fun _ => [])).releases = 0 ∧
    (((GltfJsonLoader.fromOptions "model.gltf" false).load.onFetched
        ⟨"1.0", [⟨some (.external "buffer.bin"), none⟩]⟩ (fun _ => []) (fun _ => [])).onLoadFailed
        (.failure "network error")).releases = 1 ∧
    (((GltfJsonLoader.fromOptions "model.gltf" false).load.onFetched
        ⟨"1.0", [⟨some (.external "buffer.bin"), none⟩]⟩ (fun _ => []) (fun _ => [])).onLoadFailed
        (.failure "network error")).bufferLoaders.length = 1 ∧
    ((((GltfJsonLoader.fromOptions "model.gltf" false).load.onFetched
        ⟨"1.0", [⟨some (.external "buffer.bin"), none⟩]⟩ (fun _ => []) (fun _ => [])).onLoadFailed
        (.failure "network error")).destroy).releases = 2 ∧
    (GltfBufferViewLoader.fromOptions 0 1).load.unload.unload.releases = 1 ∧
    GltfImageLoader.fromOptions.load.unload.unload.releases = 1 ∧
    GltfDracoLoader.fromOptions.load.unload.unload.releases = 1 :=
  ⟨rfl, rfl, rfl, rfl, rfl, rfl, rfl, rfl⟩

/-- C4: when a direct dependency's promise rejects while the loader's promise
is still pending, every loader releases its own child cache references (the
handle fields are cleared; for the JSON loader every handle in
`_bufferLoaders` is released), enters FAILED, and rejects its promise with
the loader-specific context message wrapped around the underlying cause,
which is retained. -/
theorem c4_dependency_failure_propagation (e : LoadError) :
    (∀ l : GltfBufferViewLoader, l.promise = .pending →
      (l.onBufferFailed e).bufferLoader = none ∧
      (l.onBufferFailed e).typedArray = none ∧
      (l.onBufferFailed e).state = .failed ∧
      (l.onBufferFailed e).promise =
        .rejected (ResourceLoader.getError e "Failed to load buffer view") ∧
      (ResourceLoader.getError e "Failed to load buffer view").causeOf = some e) ∧
    (∀ l : GltfImageLoader, l.promise = .pending →
      (l.onLoadFailed e).bufferViewLoader = none ∧
      (l.onLoadFailed e).state = .failed ∧
      (l.onLoadFailed e).promise =
        .rejected (ResourceLoader.getError e "Failed to load embedded image") ∧
      (ResourceLoader.getError e "Failed to load embedded image").causeOf = some e) ∧
    (∀ l : GltfJsonLoader, l.promise = .pending →
      (l.onLoadFailed e).gltf = none ∧
      (l.onLoadFailed e).releases = l.releases + l.bufferLoaders.length ∧
      (l.onLoadFailed e).state = .failed ∧
      (l.onLoadFailed e).promise =
        .rejected (ResourceLoader.getError e ("Failed to load glTF: " ++ l.url)) ∧
      (ResourceLoader.getError e ("Failed to load glTF: " ++ l.url)).causeOf = some e) ∧
    (∀ l : GltfDracoLoader, l.promise = .pending →
      (l.handleError e).bufferViewLoader = none ∧
      (l.handleError e).bufferViewTypedArray = none ∧
      (l.handleError e).state = .failed ∧
      (l.handleError e).promise = .rejected (ResourceLoader.getError e "Failed to load Draco") ∧
      (ResourceLoader.getError e "Failed to load Draco").causeOf = some e) := by
  refine ⟨fun l h => ?_, fun l h => ?_, fun l h => ?_, fun l h => ?_⟩ <;>
    simp [GltfBufferViewLoader.onBufferFailed, GltfBufferViewLoader.unload,
      GltfImageLoader.onLoadFailed, GltfImageLoader.handleError, GltfImageLoader.unload,
      GltfJsonLoader.onLoadFailed, GltfJsonLoader.unload,
      GltfDracoLoader.handleError, GltfDracoLoader.unload,
      PromiseState.reject, ResourceLoader.getError, LoadError.causeOf, h]

/-- Witness for C4 with the underlying cause `failure "boom"` and freshly
loaded loaders (pending promises). -/
theorem c4_witness :
    ((GltfBufferViewLoader.fromOptions 0 1).load.onBufferFailed (.failure "boom")).promise =
      .rejected (ResourceLoader.getError (.failure "boom") "Failed to load buffer view") ∧
    (GltfImageLoader.fromOptions.load.onLoadFailed (.failure "boom")).promise =
      .rejected (ResourceLoader.getError (.failure "boom") "Failed to load embedded image") ∧
    ((GltfJsonLoader.fromOptions "model.gltf" false).load.onLoadFailed (.failure "boom")).promise =
      .rejected
        (ResourceLoader.getError (.failure "boom") ("Failed to load glTF: " ++ "model.gltf")) ∧
    (GltfDracoLoader.fromOptions.load.handleError (.failure "boom")).promise =
      .rejected (ResourceLoader.getError (.failure "boom") "Failed to load Draco") := by
  refine ⟨?_, ?_, ?_, ?_⟩
  · exact (((c4_dependency_failure_propagation (.failure "boom")).1
      ((GltfBufferViewLoader.fromOptions 0 1).load) rfl).2.2.2).1
  · exact (((c4_dependency_failure_propagation (.failure "boom")).2.1
      GltfImageLoader.fromOptions.load rfl).2.2).1
  · exact (((c4_dependency_failure_propagation (.failure "boom")).2.2.1
      ((GltfJsonLoader.fromOptions "model.gltf" false).load) rfl).2.2.2).1
  · exact (((c4_dependency_failure_propagation (.failure "boom")).2.2.2
      GltfDracoLoader.fromOptions.load rfl).2.2.2).1

/-- C5 (amended): a dependency failure arriving after `destroy()` is NOT
swallowed: for every loader in DESTROYED state with a pending promise, the
error handler still runs unconditionally — it moves the state from DESTROYED
to FAILED and rejects the promise with the annotated error. -/
theorem c5_amended_failure_not_swallowed (e : LoadError) :
    (∀ l : GltfBufferViewLoader, l.state = .destroyed → l.promise = .pending →
      (l.onBufferFailed e).state = .failed ∧
      (l.onBufferFailed e).promise =
        .rejected (ResourceLoader.getError e "Failed to load buffer view")) ∧
    (∀ l : GltfImageLoader, l.state = .destroyed → l.promise = .pending →
      (l.onLoadFailed e).state = .failed ∧
      (l.onLoadFailed e).promise =
        .rejected (ResourceLoader.getError e "Failed to load embedded image")) ∧
    (∀ l : GltfJsonLoader, l.state = .destroyed → l.promise = .pending →
      (l.onLoadFailed e).state = .failed ∧
      (l.onLoadFailed e).promise =
        .rejected (ResourceLoader.getError e ("Failed to load glTF: " ++ l.url))) ∧
    (∀ l : GltfDracoLoader, l.state = .destroyed → l.promise = .pending →
      (l.handleError e).state = .failed ∧
      (l.handleError e).promise =
        .rejected (ResourceLoader.getError e "Failed to load Draco")) := by
  refine ⟨fun l _ h => ?_, fun l _ h => ?_, fun l _ h => ?_, fun l _ h => ?_⟩ <;>
    simp [GltfBufferViewLoader.onBufferFailed, GltfBufferViewLoader.unload,
      GltfImageLoader.onLoadFailed, GltfImageLoader.handleError, GltfImageLoader.unload,
      GltfJsonLoader.onLoadFailed, GltfJsonLoader.unload,
      GltfDracoLoader.handleError, GltfDracoLoader.unload,
      PromiseState.reject, h]

/-- Witness for C5 (amended): loaders destroyed while their dependency is in
flight, the dependency then failing with `failure "late"`. -/
theorem c5_amended_witness :
    ((((GltfBufferViewLoader.fromOptions 0 1).load.destroy).onBufferFailed
        (.failure "late")).state = .failed ∧
      (((GltfBufferViewLoader.fromOptions 0 1).load.destroy).onBufferFailed
          (.failure "late")).promise =
        .rejected (ResourceLoader.getError (.failure "late") "Failed to load buffer view")) ∧
    (((GltfDracoLoader.fromOptions.load.destroy).handleError (.failure "late")).state =
        .failed ∧
      ((GltfDracoLoader.fromOptions.load.destroy).handleError (.failure "late")).promise =
        .rejected (ResourceLoader.getError (.failure "late") "Failed to load Draco")) :=
  ⟨(c5_amended_failure_not_swallowed (.failure "late")).1
      ((GltfBufferViewLoader.fromOptions 0 1).load.destroy) rfl rfl,
    (c5_amended_failure_not_swallowed (.failure "late")).2.2.2
      (GltfDracoLoader.fromOptions.load.destroy) rfl rfl⟩

/-- C6 (amended): once the Draco byte range is available the loader stays in
LOADING (not PROCESSING) across the `update()` calls while the decode task
runs; an `update()` that cannot schedule the decode task this frame returns
with no state change at all; and when the decode completes the loader
releases the buffer view reference, discards the source bytes, keeps only the
decoded data, transitions to READY and resolves. -/
theorem c6_amended_draco_update_lifecycle (bytes : List Nat) (d : DracoDecodedData) :
    (GltfDracoLoader.fromOptions.load.onBufferViewResolved bytes).state = .loading ∧
    (GltfDracoLoader.fromOptions.load.onBufferViewResolved bytes).bufferViewTypedArray =
      some bytes ∧
    (GltfDracoLoader.fromOptions.load.onBufferViewResolved bytes).update false =
      GltfDracoLoader.fromOptions.load.onBufferViewResolved bytes ∧
    ((GltfDracoLoader.fromOptions.load.onBufferViewResolved bytes).update true).state =
      .loading ∧
    ((GltfDracoLoader.fromOptions.load.onBufferViewResolved bytes).update true).update true =
      (GltfDracoLoader.fromOptions.load.onBufferViewResolved bytes).update true ∧
    (((GltfDracoLoader.fromOptions.load.onBufferViewResolved bytes).update
        true).onDecodeResolved d).bufferViewTypedArray = none ∧
    (((GltfDracoLoader.fromOptions.load.onBufferViewResolved bytes).update
        true).onDecodeResolved d).bufferViewLoader = none ∧
    (((GltfDracoLoader.fromOptions.load.onBufferViewResolved bytes).update
        true).onDecodeResolved d).releases = 1 ∧
    (((GltfDracoLoader.fromOptions.load.onBufferViewResolved bytes).update
        true).onDecodeResolved d).decodedData = some d ∧
    (((GltfDracoLoader.fromOptions.load.onBufferViewResolved bytes).update
        true).onDecodeResolved d).state = .ready ∧
    (((GltfDracoLoader.fromOptions.load.onBufferViewResolved bytes).update
        true).onDecodeResolved d).promise = .resolved :=
  ⟨rfl, rfl, rfl, rfl, rfl, rfl, rfl, rfl, rfl, rfl, rfl⟩

/-- C3: for every byte buffer, the MIME sniffing returns each format exactly
for its documented signature (BMP, GIF, JPEG, PNG, KTX, CRN, Basis at bytes
0-1; WebP for RIFF at 0-3 and WEBP at 8-11), and for a buffer matching none
of the signatures both the sniffer and `loadImageFromBufferTypedArray` fail
with the "Image data does not have valid header" error instead of selecting a
decode path. -/
theorem c3_mime_sniffing_characterisation (t : List Nat) :
    (getMimeTypeFromTypedArray t = .ok "image/bmp" ↔ sigBMP t) ∧
    (getMimeTypeFromTypedArray t = .ok "image/gif" ↔ sigGIF t) ∧
    (getMimeTypeFromTypedArray t = .ok "image/jpeg" ↔ sigJPEG t) ∧
    (getMimeTypeFromTypedArray t = .ok "image/png" ↔ sigPNG t) ∧
    (getMimeTypeFromTypedArray t = .ok "image/ktx" ↔ sigKTX t) ∧
    (getMimeTypeFromTypedArray t = .ok "image/crn" ↔ sigCRN t) ∧
    (getMimeTypeFromTypedArray t = .ok "image/basis" ↔ sigBasis t) ∧
    (getMimeTypeFromTypedArray t = .ok "image/webp" ↔ sigWebP t) ∧
    (getMimeTypeFromTypedArray t = .error "Image data does not have valid header" ↔
      ¬ sigAny t) ∧
    (loadImageFromBufferTypedArray t = .ok .loadKTX ↔ sigKTX t) ∧
    (loadImageFromBufferTypedArray t = .ok .loadCRN ↔ sigCRN t) ∧
    (loadImageFromBufferTypedArray t = .ok (.loadImageFromTypedArray "image/webp") ↔
      sigWebP t) ∧
    (loadImageFromBufferTypedArray t = .error "Image data does not have valid header" ↔
      ¬ sigAny t) := by
  unfold loadImageFromBufferTypedArray getMimeTypeFromTypedArray sigAny sigBMP sigGIF sigJPEG
    sigPNG sigKTX sigCRN sigBasis sigWebP
  dsimp only
  split_ifs with h1 h2 h3 h4 h5 h6 h7 h8 <;> simp_all

/-- Ledger facts about the upgrade loop: it never touches state, promise,
releases or the stored glTF, and it appends some number of
`keepResident = false` external acquisitions with matching handles. -/
theorem upgrade_fold_ledger (eb : BufferUri → List Nat) (buffers : List GltfBuffer) :
    ∀ (l : GltfJsonLoader) (acc : List GltfBuffer),
      (buffers.foldl (GltfJsonLoader.upgradeBufferStep eb) (l, acc)).1.state = l.state ∧
      (buffers.foldl (GltfJsonLoader.upgradeBufferStep eb) (l, acc)).1.promise = l.promise ∧
      (buffers.foldl (GltfJsonLoader.upgradeBufferStep eb) (l, acc)).1.releases = l.releases ∧
      (buffers.foldl (GltfJsonLoader.upgradeBufferStep eb) (l, acc)).1.gltf = l.gltf ∧
      ∃ n,
        (buffers.foldl (GltfJsonLoader.upgradeBufferStep eb) (l, acc)).1.externalAcquires =
          l.externalAcquires ++ List.replicate n false ∧
        (buffers.foldl (GltfJsonLoader.upgradeBufferStep eb) (l, acc)).1.bufferLoaders =
          l.bufferLoaders ++ List.replicate n () := by
  induction buffers with
  | nil =>
    intro l acc
    exact ⟨rfl, rfl, rfl, rfl, 0, by simp, by simp⟩
  | cons b bs ih =>
    intro l acc
    rcases b with ⟨uri, source⟩
    cases source with
    | some s =>
      simpa only [List.foldl_cons, GltfJsonLoader.upgradeBufferStep] using ih l _
    | none =>
      cases uri with
      | none =>
        simpa only [List.foldl_cons, GltfJsonLoader.upgradeBufferStep] using ih l _
      | some u =>
        simp only [List.foldl_cons, GltfJsonLoader.upgradeBufferStep]
        obtain ⟨h1, h2, h3, h4, n, h5, h6⟩ :=
          ih { l with
                externalAcquires := l.externalAcquires ++ [false]
                bufferLoaders := l.bufferLoaders ++ [()] }
            (acc ++ [{ uri := some u, source := some (eb u) }])
        refine ⟨h1, h2, h3, h4, n + 1, ?_, ?_⟩
        · rw [h5]
          simp [List.append_assoc, List.replicate_succ]
        · rw [h6]
          simp [List.append_assoc, List.replicate_succ]

/-- Ledger facts about the embedded-buffer loop: it never touches state,
promise, releases, the stored glTF or the external-acquire ledger, and it
appends some number of handles. -/
theorem embedded_fold_ledger (buffers : List GltfBuffer) :
    ∀ l : GltfJsonLoader,
      (buffers.foldl GltfJsonLoader.embeddedBufferStep l).state = l.state ∧
      (buffers.foldl GltfJsonLoader.embeddedBufferStep l).promise = l.promise ∧
      (buffers.foldl GltfJsonLoader.embeddedBufferStep l).releases = l.releases ∧
      (buffers.foldl GltfJsonLoader.embeddedBufferStep l).gltf = l.gltf ∧
      (buffers.foldl GltfJsonLoader.embeddedBufferStep l).externalAcquires =
        l.externalAcquires ∧
      ∃ m,
        (buffers.foldl GltfJsonLoader.embeddedBufferStep l).bufferLoaders =
          l.bufferLoaders ++ List.replicate m () := by
  induction buffers with
  | nil =>
    intro l
    exact ⟨rfl, rfl, rfl, rfl, rfl, 0, by simp⟩
  | cons b bs ih =>
    intro l
    simp only [List.foldl_cons, GltfJsonLoader.embeddedBufferStep]
    by_cases h : b.source.isSome ∧ b.uri.isNone
    · simp only [if_pos h]
      obtain ⟨h1, h2, h3, h4, h5, m, h6⟩ :=
        ih { l with
              embeddedAcquires := l.embeddedAcquires ++ [l.keepResident]
              bufferLoaders := l.bufferLoaders ++ [()] }
      refine ⟨h1, h2, h3, h4, h5, m + 1, ?_⟩
      rw [h6]
      simp [List.append_assoc, List.replicate_succ]
    · simp only [if_neg h]
      exact ih l

/-- Ledger facts about the whole `processGltf` pipeline: state, promise and
releases are untouched (in particular nothing is released during
processing), all external acquisitions carry `keepResident = false`, and the
handle list only grows. -/
theorem processGltf_ledger (l : GltfJsonLoader) (gltf : Gltf)
    (f eb : BufferUri → List Nat) :
    (GltfJsonLoader.processGltf l gltf f eb).1.state = l.state ∧
    (GltfJsonLoader.processGltf l gltf f eb).1.promise = l.promise ∧
    (GltfJsonLoader.processGltf l gltf f eb).1.releases = l.releases ∧
    (∃ n,
      (GltfJsonLoader.processGltf l gltf f eb).1.externalAcquires =
        l.externalAcquires ++ List.replicate n false) ∧
    ∃ m,
      (GltfJsonLoader.processGltf l gltf f eb).1.bufferLoaders =
        l.bufferLoaders ++ List.replicate m () := by
  unfold GltfJsonLoader.processGltf GltfJsonLoader.upgradeVersion
    GltfJsonLoader.loadEmbeddedBuffers
  by_cases hv : (GltfJsonLoader.decodeDataUris gltf f).version = "2.0"
  · simp only [if_pos hv]
    obtain ⟨h1, h2, h3, _, h5, m, h6⟩ :=
      embedded_fold_ledger (GltfJsonLoader.decodeDataUris gltf f).buffers l
    exact ⟨h1, h2, h3, ⟨0, by simp [h5]⟩, m, h6⟩
  · simp only [if_neg hv]
    obtain ⟨u1, u2, u3, _, n, u5, u6⟩ :=
      upgrade_fold_ledger eb (GltfJsonLoader.decodeDataUris gltf f).buffers l []
    obtain ⟨e1, e2, e3, _, e5, m, e6⟩ :=
      embedded_fold_ledger
        (GltfJsonLoader.updateVersion
          { GltfJsonLoader.decodeDataUris gltf f with
              buffers :=
                ((GltfJsonLoader.decodeDataUris gltf f).buffers.foldl
                  (GltfJsonLoader.upgradeBufferStep eb) (l, [])).2 }).buffers
        ((GltfJsonLoader.decodeDataUris gltf f).buffers.foldl
          (GltfJsonLoader.upgradeBufferStep eb) (l, [])).1
    refine ⟨e1.trans u1, e2.trans u2, e3.trans u3, ⟨n, e5.trans u5⟩, n + m, ?_⟩
    rw [e6, u6, List.replicate_add, List.append_assoc]

/-- C7 (amended): every external buffer needed by a legacy upgrade is loaded
through the cache with `keepResident = false`, but the acquired cache
references are retained in `_bufferLoaders` for the whole load — nothing is
released while processing runs — and they are released (all at once) only by
the loader's own `unload`/`destroy`. -/
theorem c7_amended_upgrade_buffer_retention (url : String) (keepResident : Bool)
    (gltf : Gltf) (f eb : BufferUri → List Nat) :
    (GltfJsonLoader.processGltf ((GltfJsonLoader.fromOptions url keepResident).load)
        gltf f eb).1.externalAcquires =
      List.replicate
        (GltfJsonLoader.processGltf ((GltfJsonLoader.fromOptions url keepResident).load)
            gltf f eb).1.externalAcquires.length false ∧
    (GltfJsonLoader.processGltf ((GltfJsonLoader.fromOptions url keepResident).load)
        gltf f eb).1.releases = 0 ∧
    (GltfJsonLoader.processGltf ((GltfJsonLoader.fromOptions url keepResident).load)
        gltf f eb).1.unload.releases =
      (GltfJsonLoader.processGltf ((GltfJsonLoader.fromOptions url keepResident).load)
          gltf f eb).1.bufferLoaders.length ∧
    (GltfJsonLoader.processGltf ((GltfJsonLoader.fromOptions url keepResident).load)
        gltf f eb).1.destroy.releases =
      (GltfJsonLoader.processGltf ((GltfJsonLoader.fromOptions url keepResident).load)
          gltf f eb).1.bufferLoaders.length := by
  obtain ⟨-, -, h3, ⟨n, h4⟩, -⟩ :=
    processGltf_ledger ((GltfJsonLoader.fromOptions url keepResident).load) gltf f eb
  have hrel : (GltfJsonLoader.processGltf ((GltfJsonLoader.fromOptions url keepResident).load)
      gltf f eb).1.releases = 0 := by
    simpa [GltfJsonLoader.fromOptions, GltfJsonLoader.load] using h3
  refine ⟨?_, hrel, ?_, ?_⟩
  · rw [h4]
    simp [GltfJsonLoader.fromOptions, GltfJsonLoader.load]
  · simp [GltfJsonLoader.unload, hrel]
  · simp [GltfJsonLoader.destroy, GltfJsonLoader.unload, hrel]

/-- Rejecting an unresolved deferred leaves it rejected (pending becomes
rejected; a rejected one is unchanged). -/
theorem PromiseState.reject_of_not_resolved (p : PromiseState) (e : LoadError)
    (h : p.isResolved = false) : ∃ e', p.reject e = .rejected e' := by
  cases p with
  | pending => exact ⟨e, rfl⟩
  | resolved => simp [PromiseState.isResolved] at h
  | rejected e0 => exact ⟨e0, rfl⟩

/-- A `destroyedSafe` configuration never has a resolved promise. -/
theorem destroyedSafe_not_resolved {s : ResourceLoaderState} {p : PromiseState}
    (h : destroyedSafe s p) : p.isResolved = false := by
  rcases h with ⟨-, hp⟩ | ⟨e, rfl⟩
  · exact hp
  · rfl

/-- Every buffer view loader event preserves `destroyedSafe`. -/
theorem bv_step_preserves_destroyedSafe (l : GltfBufferViewLoader)
    (ev : GltfBufferViewLoader.Event) (h : destroyedSafe l.state l.promise) :
    destroyedSafe (l.step ev).state (l.step ev).promise := by
  cases ev with
  | bufferResolved t =>
    simp only [GltfBufferViewLoader.step, GltfBufferViewLoader.onBufferResolved]
    by_cases hd : l.state = .destroyed
    · rw [if_pos hd]
      exact h
    · rw [if_neg hd]
      rcases h with ⟨hdd, -⟩ | ⟨e, he⟩
      · exact absurd hdd hd
      · exact Or.inr ⟨e, by simp [he, PromiseState.resolve]⟩
  | bufferFailed e =>
    simp only [GltfBufferViewLoader.step, GltfBufferViewLoader.onBufferFailed]
    exact Or.inr (PromiseState.reject_of_not_resolved l.promise _
      (destroyedSafe_not_resolved h))
  | destroyEv =>
    exact Or.inl ⟨rfl, destroyedSafe_not_resolved h⟩

/-- `destroyedSafe` is preserved by whole buffer view loader event traces. -/
theorem bv_run_preserves_destroyedSafe (events : List GltfBufferViewLoader.Event) :
    ∀ l : GltfBufferViewLoader, destroyedSafe l.state l.promise →
      destroyedSafe (l.run events).state (l.run events).promise := by
  induction events with
  | nil => exact fun l h => h
  | cons e es ih => exact fun l h => ih (l.step e) (bv_step_preserves_destroyedSafe l e h)

/-- Every image loader event preserves `destroyedSafe`. -/
theorem image_step_preserves_destroyedSafe (l : GltfImageLoader)
    (ev : GltfImageLoader.Event) (h : destroyedSafe l.state l.promise) :
    destroyedSafe (l.step ev).state (l.step ev).promise := by
  cases ev with
  | bufferViewResolved =>
    simp only [GltfImageLoader.step, GltfImageLoader.onBufferViewResolved]
    by_cases hd : l.state = .destroyed
    · rw [if_pos hd]
      exact h
    · rw [if_neg hd]
      exact h
  | imageDecoded i =>
    simp only [GltfImageLoader.step, GltfImageLoader.onImageDecoded]
    by_cases hd : l.state = .destroyed
    · rw [if_pos hd]
      exact h
    · rw [if_neg hd]
      rcases h with ⟨hdd, -⟩ | ⟨e, he⟩
      · exact absurd hdd hd
      · exact Or.inr ⟨e, by simp [GltfImageLoader.unload, he, PromiseState.resolve]⟩
  | loadFailed e =>
    simp only [GltfImageLoader.step, GltfImageLoader.onLoadFailed, GltfImageLoader.handleError]
    exact Or.inr (PromiseState.reject_of_not_resolved l.promise _
      (destroyedSafe_not_resolved h))
  | destroyEv =>
    exact Or.inl ⟨rfl, destroyedSafe_not_resolved h⟩

/-- `destroyedSafe` is preserved by whole image loader event traces. -/
theorem image_run_preserves_destroyedSafe (events : List GltfImageLoader.Event) :
    ∀ l : GltfImageLoader, destroyedSafe l.state l.promise →
      destroyedSafe (l.run events).state (l.run events).promise := by
  induction events with
  | nil => exact fun l h => h
  | cons e es ih => exact fun l h => ih (l.step e) (image_step_preserves_destroyedSafe l e h)

/-- Every JSON loader event preserves `destroyedSafe`. -/
theorem json_step_preserves_destroyedSafe (l : GltfJsonLoader)
    (ev : GltfJsonLoader.Event) (h : destroyedSafe l.state l.promise) :
    destroyedSafe (l.step ev).state (l.step ev).promise := by
  cases ev with
  | fetched g =>
    simp only [GltfJsonLoader.step, GltfJsonLoader.onFetched]
    by_cases hd : l.state = .destroyed
    · rw [if_pos hd]
      exact h
    · rw [if_neg hd]
      obtain ⟨h1, h2, -, -, -⟩ := processGltf_ledger l g (fun _ => []) (fun _ => [])
      rw [h1, h2]
      exact h
  | processed g =>
    simp only [GltfJsonLoader.step, GltfJsonLoader.onProcessed]
    by_cases hd : l.state = .destroyed
    · rw [if_pos hd]
      exact h
    · rw [if_neg hd]
      rcases h with ⟨hdd, -⟩ | ⟨e, he⟩
      · exact absurd hdd hd
      · exact Or.inr ⟨e, by simp [he, PromiseState.resolve]⟩
  | loadFailed e =>
    simp only [GltfJsonLoader.step, GltfJsonLoader.onLoadFailed]
    exact Or.inr (PromiseState.reject_of_not_resolved l.promise _
      (destroyedSafe_not_resolved h))
  | destroyEv =>
    exact Or.inl ⟨rfl, destroyedSafe_not_resolved h⟩

/-- `destroyedSafe` is preserved by whole JSON loader event traces. -/
theorem json_run_preserves_destroyedSafe (events : List GltfJsonLoader.Event) :
    ∀ l : GltfJsonLoader, destroyedSafe l.state l.promise →
      destroyedSafe (l.run events).state (l.run events).promise := by
  induction events with
  | nil => exact fun l h => h
  | cons e es ih => exact fun l h => ih (l.step e) (json_step_preserves_destroyedSafe l e h)

/-- Every Draco loader event preserves `destroyedSafe`. -/
theorem draco_step_preserves_destroyedSafe (l : GltfDracoLoader)
    (ev : GltfDracoLoader.Event) (h : destroyedSafe l.state l.promise) :
    destroyedSafe (l.step ev).state (l.step ev).promise := by
  cases ev with
  | bufferViewResolved t =>
    simp only [GltfDracoLoader.step, GltfDracoLoader.onBufferViewResolved]
    by_cases hd : l.state = .destroyed
    · rw [if_pos hd]
      exact h
    · rw [if_neg hd]
      exact h
  | updateEv c =>
    simp only [GltfDracoLoader.step, GltfDracoLoader.update]
    split_ifs <;> exact h
  | decodeResolved d =>
    simp only [GltfDracoLoader.step, GltfDracoLoader.onDecodeResolved]
    by_cases hd : l.state = .destroyed
    · rw [if_pos hd]
      exact h
    · rw [if_neg hd]
      rcases h with ⟨hdd, -⟩ | ⟨e, he⟩
      · exact absurd hdd hd
      · exact Or.inr ⟨e, by simp [GltfDracoLoader.unload, he, PromiseState.resolve]⟩
  | loadFailed e =>
    simp only [GltfDracoLoader.step, GltfDracoLoader.handleError]
    exact Or.inr (PromiseState.reject_of_not_resolved l.promise _
      (destroyedSafe_not_resolved h))
  | destroyEv =>
    exact Or.inl ⟨rfl, destroyedSafe_not_resolved h⟩

/-- `destroyedSafe` is preserved by whole Draco loader event traces. -/
theorem draco_run_preserves_destroyedSafe (events : List GltfDracoLoader.Event) :
    ∀ l : GltfDracoLoader, destroyedSafe l.state l.promise →
      destroyedSafe (l.run events).state (l.run events).promise := by
  induction events with
  | nil => exact fun l h => h
  | cons e es ih => exact fun l h => ih (l.step e) (draco_step_preserves_destroyedSafe l e h)

/-- C1: for every loader (buffer view, image, JSON, Draco), a success
continuation that runs while the loader is DESTROYED only unloads the
loader's own resources: it equals `unload`, leaves the state DESTROYED and
the promise untouched, and clears the child handle and result fields.
Moreover, along any event trace starting from a DESTROYED loader whose
promise is not yet resolved, the promise is never resolved. -/
theorem c1_destroyed_in_flight_never_resolves :
    (∀ (l : GltfBufferViewLoader) (t : Uint8ArrayView), l.state = .destroyed →
      l.onBufferResolved t = l.unload ∧
      (l.onBufferResolved t).state = .destroyed ∧
      (l.onBufferResolved t).promise = l.promise ∧
      (l.onBufferResolved t).typedArray = none ∧
      (l.onBufferResolved t).bufferLoader = none) ∧
    (∀ (l : GltfImageLoader) (i : DecodedImage), l.state = .destroyed →
      l.onBufferViewResolved = l.unload ∧
      l.onImageDecoded i = l.unload ∧
      (l.onImageDecoded i).state = .destroyed ∧
      (l.onImageDecoded i).promise = l.promise ∧
      (l.onImageDecoded i).image = none ∧
      (l.onImageDecoded i).bufferViewLoader = none) ∧
    (∀ (l : GltfJsonLoader) (g : Gltf) (f eb : BufferUri → List Nat),
      l.state = .destroyed →
      l.onFetched g f eb = l.unload ∧
      l.onProcessed g = l.unload ∧
      (l.onProcessed g).state = .destroyed ∧
      (l.onProcessed g).promise = l.promise ∧
      (l.onProcessed g).gltf = none) ∧
    (∀ (l : GltfDracoLoader) (t : List Nat) (d : DracoDecodedData),
      l.state = .destroyed →
      l.onBufferViewResolved t = l.unload ∧
      l.onDecodeResolved d = l.unload ∧
      (l.onDecodeResolved d).state = .destroyed ∧
      (l.onDecodeResolved d).promise = l.promise ∧
      (l.onDecodeResolved d).decodedData = none ∧
      (l.onDecodeResolved d).bufferViewLoader = none) ∧
    (∀ (l : GltfBufferViewLoader) (events : List GltfBufferViewLoader.Event),
      l.state = .destroyed → l.promise.isResolved = false →
      (l.run events).promise.isResolved = false) ∧
    (∀ (l : GltfImageLoader) (events : List GltfImageLoader.Event),
      l.state = .destroyed → l.promise.isResolved = false →
      (l.run events).promise.isResolved = false) ∧
    (∀ (l : GltfJsonLoader) (events : List GltfJsonLoader.Event),
      l.state = .destroyed → l.promise.isResolved = false →
      (l.run events).promise.isResolved = false) ∧
    (∀ (l : GltfDracoLoader) (events : List GltfDracoLoader.Event),
      l.state = .destroyed → l.promise.isResolved = false →
      (l.run events).promise.isResolved = false) := by
  refine ⟨?_, ?_, ?_, ?_, ?_, ?_, ?_, ?_⟩
  · intro l t h
    have he : l.onBufferResolved t = l.unload := by
      rw [GltfBufferViewLoader.onBufferResolved, if_pos h]
    exact ⟨he, by rw [he]; exact h, by rw [he]; rfl, by rw [he]; rfl, by rw [he]; rfl⟩
  · intro l i h
    have h0 : l.onBufferViewResolved = l.unload := by
      rw [GltfImageLoader.onBufferViewResolved, if_pos h]
    have he : l.onImageDecoded i = l.unload := by
      rw [GltfImageLoader.onImageDecoded, if_pos h]
    exact ⟨h0, he, by rw [he]; exact h, by rw [he]; rfl, by rw [he]; rfl, by rw [he]; rfl⟩
  · intro l g f eb h
    have h0 : l.onFetched g f eb = l.unload := by
      rw [GltfJsonLoader.onFetched, if_pos h]
    have he : l.onProcessed g = l.unload := by
      rw [GltfJsonLoader.onProcessed, if_pos h]
    exact ⟨h0, he, by rw [he]; exact h, by rw [he]; rfl, by rw [he]; rfl⟩
  · intro l t d h
    have h0 : l.onBufferViewResolved t = l.unload := by
      rw [GltfDracoLoader.onBufferViewResolved, if_pos h]
    have he : l.onDecodeResolved d = l.unload := by
      rw [GltfDracoLoader.onDecodeResolved, if_pos h]
    exact ⟨h0, he, by rw [he]; exact h, by rw [he]; rfl, by rw [he]; rfl, by rw [he]; rfl⟩
  · intro l events hd hp
    exact destroyedSafe_not_resolved
      (bv_run_preserves_destroyedSafe events l (Or.inl ⟨hd, hp⟩))
  · intro l events hd hp
    exact destroyedSafe_not_resolved
      (image_run_preserves_destroyedSafe events l (Or.inl ⟨hd, hp⟩))
  · intro l events hd hp
    exact destroyedSafe_not_resolved
      (json_run_preserves_destroyedSafe events l (Or.inl ⟨hd, hp⟩))
  · intro l events hd hp
    exact destroyedSafe_not_resolved
      (draco_run_preserves_destroyedSafe events l (Or.inl ⟨hd, hp⟩))

/-- Witness for C1: a buffer view loader destroyed mid-flight whose parent
buffer later resolves, and a Draco loader destroyed mid-flight whose decode
later resolves; in both cases a subsequent failure event also never resolves
the promise. -/
theorem c1_witness :
    ((GltfBufferViewLoader.fromOptions 0 1).load.destroy.onBufferResolved
        ⟨[1, 2, 3], 0, 3⟩) = (GltfBufferViewLoader.fromOptions 0 1).load.destroy.unload ∧
    (((GltfBufferViewLoader.fromOptions 0 1).load.destroy).run
        [.bufferResolved ⟨[1, 2, 3], 0, 3⟩, .bufferFailed (.failure "late"),
          .bufferResolved ⟨[1, 2, 3], 0, 3⟩]).promise.isResolved = false ∧
    ((GltfDracoLoader.fromOptions.load.destroy).run
        [.decodeResolved ⟨5⟩, .loadFailed (.failure "late"),
          .decodeResolved ⟨5⟩]).promise.isResolved = false :=
  ⟨(c1_destroyed_in_flight_never_resolves.1
      (GltfBufferViewLoader.fromOptions 0 1).load.destroy ⟨[1, 2, 3], 0, 3⟩ rfl).1,
    c1_destroyed_in_flight_never_resolves.2.2.2.2.1
      (GltfBufferViewLoader.fromOptions 0 1).load.destroy
      [.bufferResolved ⟨[1, 2, 3], 0, 3⟩, .bufferFailed (.failure "late"),
        .bufferResolved ⟨[1, 2, 3], 0, 3⟩] rfl rfl,
    c1_destroyed_in_flight_never_resolves.2.2.2.2.2.2.2
      GltfDracoLoader.fromOptions.load.destroy
      [.decodeResolved ⟨5⟩, .loadFailed (.failure "late"), .decodeResolved ⟨5⟩] rfl rfl⟩

end Cesium
